import Mathlib

/-!
Verification development for the CultureBridge matching and caching engine
(backend/app/services/matching_service.py, backend/app/utils/cache_utils.py,
backend/app/routers/matching.py, backend/app/models/profile.py,
backend/app/repositories/profile_repository.py).

Python floats are modelled as rationals where the source only performs
field arithmetic and comparisons, and as reals where the source takes a
square root (numpy vector norms in cosine similarity).  Fallible Python
code (a possible ZeroDivisionError) is modelled with Option.  The external
embedding provider, the per-candidate timeout, and the possibility of an
unexpected exception inside the pipeline are modelled as an explicit
environment.
-/

/-! ## JSON values

Model of the Python objects stored in the JSONB quiz_data column: the
payloads the code manipulates are null, booleans, integers, strings,
arrays and string-keyed objects (dicts).  An object is an association
list; a Python dict has no duplicate keys, which theorems state as a
Nodup hypothesis on the key list where it matters. -/

inductive Json where
  | null : Json
  | bool (b : Bool) : Json
  | int (n : Int) : Json
  | str (s : String) : Json
  | arr (elems : List Json) : Json
  | obj (fields : List (String × Json)) : Json

/-- Python truthiness (`bool(x)` is false) for the modelled JSON values:
None, False, 0, empty string, empty list and empty dict are falsy. -/
def Json.falsy : Json → Bool
  | .null => true
  | .bool b => !b
  | .int n => n == 0
  | .str s => s == ""
  | .arr l => l.isEmpty
  | .obj l => l.isEmpty

/-- Key order used by `json.dumps(..., sort_keys=True)`: Python sorts dict
keys with the string order (code-point lexicographic, which is also Lean's
order on String). -/
def fieldLe (p q : String × Json) : Prop := p.1 ≤ q.1

instance : DecidableRel fieldLe := fun p q => inferInstanceAs (Decidable (p.1 ≤ q.1))

mutual
/-- Canonicalization performed by `json.dumps(quiz_data, sort_keys=True)`:
every object's fields are emitted in sorted key order, recursively. -/
def Json.canon : Json → Json
  | .arr l => .arr (Json.canonElems l)
  | .obj l => .obj (List.insertionSort fieldLe (Json.canonFields l))
  | .null => .null
  | .bool b => .bool b
  | .int n => .int n
  | .str s => .str s

def Json.canonElems : List Json → List Json
  | [] => []
  | j :: l => Json.canon j :: Json.canonElems l

def Json.canonFields : List (String × Json) → List (String × Json)
  | [] => []
  | (k, v) :: l => (k, Json.canon v) :: Json.canonFields l
end

/-- Hex digit character, as produced by Python hex formatting (lowercase). -/
def hex_char (n : Nat) : Char := if n < 10 then Char.ofNat (48 + n) else Char.ofNat (87 + n)

/-- Four hex digits of a 16-bit value (the XXXX of a \uXXXX escape). -/
def hex4 (n : Nat) : List Char :=
  [hex_char (n / 4096 % 16), hex_char (n / 256 % 16), hex_char (n / 16 % 16), hex_char (n % 16)]

/-- Escaping of one character by `json.dumps` with its default
ensure_ascii=True: printable ASCII other than quote and backslash is kept,
the short escapes are used for backspace, tab, newline, form feed and
carriage return, every other character becomes \uXXXX (a surrogate pair
above U+FFFF). -/
def escape_json_char (c : Char) : List Char :=
  if c = '"' then ['\\', '"']
  else if c = '\\' then ['\\', '\\']
  else if 32 ≤ c.toNat ∧ c.toNat ≤ 126 then [c]
  else if c.toNat = 8 then ['\\', 'b']
  else if c.toNat = 9 then ['\\', 't']
  else if c.toNat = 10 then ['\\', 'n']
  else if c.toNat = 12 then ['\\', 'f']
  else if c.toNat = 13 then ['\\', 'r']
  else if c.toNat < 65536 then '\\' :: 'u' :: hex4 c.toNat
  else
    let m := c.toNat - 65536
    '\\' :: 'u' :: hex4 (55296 + m / 1024) ++ '\\' :: 'u' :: hex4 (56320 + m % 1024)

/-- A JSON string literal as serialized by `json.dumps`. -/
def json_dump_string (s : String) : String :=
  String.mk ('"' :: (s.data.map escape_json_char).flatten ++ ['"'])

mutual
/-- `json.dumps` with its default separators (", " between items, ": "
between a key and its value).  Key sorting is the separate `Json.canon`
pass, so `json.dumps(x, sort_keys=True)` is `Json.dumps (Json.canon x)`. -/
def Json.dumps : Json → String
  | .null => "null"
  | .bool b => if b then "true" else "false"
  | .int n => toString n
  | .str s => json_dump_string s
  | .arr l => "[" ++ Json.dumpsElems l ++ "]"
  | .obj l => "\x7b" ++ Json.dumpsFields l ++ "\x7d"

def Json.dumpsElems : List Json → String
  | [] => ""
  | [j] => Json.dumps j
  | j :: l => Json.dumps j ++ ", " ++ Json.dumpsElems l

def Json.dumpsFields : List (String × Json) → String
  | [] => ""
  | [(k, v)] => json_dump_string k ++ ": " ++ Json.dumps v
  | (k, v) :: l => json_dump_string k ++ ": " ++ Json.dumps v ++ ", " ++ Json.dumpsFields l
end

/-- UTF-8 encoding of one code point (`str.encode()` on one character). -/
def utf8_char (n : Nat) : List Nat :=
  if n < 128 then [n]
  else if n < 2048 then [192 + n / 64, 128 + n % 64]
  else if n < 65536 then [224 + n / 4096, 128 + n / 64 % 64, 128 + n % 64]
  else [240 + n / 262144, 128 + n / 4096 % 64, 128 + n / 64 % 64, 128 + n % 64]

/-- `str.encode()`: the UTF-8 bytes of a string. -/
def utf8_encode (s : String) : List Nat := (s.data.map (fun c => utf8_char c.toNat)).flatten

/-! ## MD5 (`hashlib.md5(...).hexdigest()`)

RFC 1321, with 32-bit words as naturals reduced mod 2^32. -/

/-- Reduction to a 32-bit word. -/
def w32 (n : Nat) : Nat := n % 4294967296

/-- 32-bit complement of a word below 2^32. -/
def notw (x : Nat) : Nat := 4294967295 - w32 x

/-- 32-bit left rotation of a word below 2^32. -/
def rotl32 (x s : Nat) : Nat := w32 (x <<< s) ||| (w32 x >>> (32 - s))

/-- The per-operation shift amounts of MD5. -/
def md5_s : List Nat :=
  [7, 12, 17, 22, 7, 12, 17, 22, 7, 12, 17, 22, 7, 12, 17, 22,
   5, 9, 14, 20, 5, 9, 14, 20, 5, 9, 14, 20, 5, 9, 14, 20,
   4, 11, 16, 23, 4, 11, 16, 23, 4, 11, 16, 23, 4, 11, 16, 23,
   6, 10, 15, 21, 6, 10, 15, 21, 6, 10, 15, 21, 6, 10, 15, 21]

/-- The sine-derived additive constants of MD5. -/
def md5_k : List Nat :=
  [0xd76aa478, 0xe8c7b756, 0x242070db, 0xc1bdceee,
   0xf57c0faf, 0x4787c62a, 0xa8304613, 0xfd469501,
   0x698098d8, 0x8b44f7af, 0xffff5bb1, 0x895cd7be,
   0x6b901122, 0xfd987193, 0xa679438e, 0x49b40821,
   0xf61e2562, 0xc040b340, 0x265e5a51, 0xe9b6c7aa,
   0xd62f105d, 0x02441453, 0xd8a1e681, 0xe7d3fbc8,
   0x21e1cde6, 0xc33707d6, 0xf4d50d87, 0x455a14ed,
   0xa9e3e905, 0xfcefa3f8, 0x676f02d9, 0x8d2a4c8a,
   0xfffa3942, 0x8771f681, 0x6d9d6122, 0xfde5380c,
   0xa4beea44, 0x4bdecfa9, 0xf6bb4b60, 0xbebfbc70,
   0x289b7ec6, 0xeaa127fa, 0xd4ef3085, 0x04881d05,
   0xd9d4d039, 0xe6db99e5, 0x1fa27cf8, 0xc4ac5665,
   0xf4292244, 0x432aff97, 0xab9423a7, 0xfc93a039,
   0x655b59c3, 0x8f0ccc92, 0xffeff47d, 0x85845dd1,
   0x6fa87e4f, 0xfe2ce6e0, 0xa3014314, 0x4e0811a1,
   0xf7537e82, 0xbd3af235, 0x2ad7d2bb, 0xeb86d391]

/-- The four word registers of the MD5 state. -/
structure Md5State where
  a : Nat
  b : Nat
  c : Nat
  d : Nat
deriving DecidableEq

/-- The nonlinear function of operation i. -/
def md5_f (i b c d : Nat) : Nat :=
  if i < 16 then (b &&& c) ||| (notw b &&& d)
  else if i < 32 then (d &&& b) ||| (notw d &&& c)
  else if i < 48 then b ^^^ c ^^^ d
  else c ^^^ (b ||| notw d)

/-- The message-word index of operation i. -/
def md5_g (i : Nat) : Nat :=
  if i < 16 then i
  else if i < 32 then (5 * i + 1) % 16
  else if i < 48 then (3 * i + 5) % 16
  else (7 * i) % 16

/-- Little-endian 32-bit word g of a 64-byte chunk. -/
def md5_word (chunk : List Nat) (g : Nat) : Nat :=
  chunk.getD (4 * g) 0 + 256 * chunk.getD (4 * g + 1) 0 +
    65536 * chunk.getD (4 * g + 2) 0 + 16777216 * chunk.getD (4 * g + 3) 0

/-- One of the 64 operations of the MD5 compression function. -/
def md5_op (chunk : List Nat) (st : Md5State) (i : Nat) : Md5State :=
  let f := w32 (md5_f i st.b st.c st.d + st.a + md5_k.getD i 0 + md5_word chunk (md5_g i))
  ⟨st.d, w32 (st.b + rotl32 f (md5_s.getD i 0)), st.b, st.c⟩

/-- The MD5 compression function on one 64-byte chunk. -/
def md5_compress (st : Md5State) (chunk : List Nat) : Md5State :=
  let r := (List.range 64).foldl (md5_op chunk) st
  ⟨w32 (st.a + r.a), w32 (st.b + r.b), w32 (st.c + r.c), w32 (st.d + r.d)⟩

/-- MD5 padding: a 0x80 byte, zeros to 56 mod 64, and the original bit
length as eight little-endian bytes. -/
def md5_pad (msg : List Nat) : List Nat :=
  let z := (119 - msg.length % 64) % 64
  msg ++ 128 :: List.replicate z 0 ++ (List.range 8).map (fun i => msg.length * 8 / 256 ^ i % 256)

/-- Split a byte list into 64-byte chunks. -/
def md5_chunks (l : List Nat) : List (List Nat) :=
  if h : l.isEmpty then [] else l.take 64 :: md5_chunks (l.drop 64)
termination_by l.length
decreasing_by
  simp only [List.length_drop]
  cases l with
  | nil => simp at h
  | cons x xs => simp; omega

/-- The initial MD5 register values. -/
def md5_init : Md5State := ⟨0x67452301, 0xefcdab89, 0x98badcfe, 0x10325476⟩

/-- The final MD5 registers for a byte message. -/
def md5_words (msg : List Nat) : Md5State :=
  (md5_chunks (md5_pad msg)).foldl md5_compress md5_init

/-- Two lowercase hex digits of a byte. -/
def byte_hex (b : Nat) : List Char := [hex_char (b / 16 % 16), hex_char (b % 16)]

/-- The four little-endian bytes of a 32-bit word. -/
def word_le_bytes (x : Nat) : List Nat :=
  [x % 256, x / 256 % 256, x / 65536 % 256, x / 16777216 % 256]

/-- The 16 digest bytes (a, b, c, d little-endian each). -/
def md5_digest_bytes (msg : List Nat) : List Nat :=
  let st := md5_words msg
  word_le_bytes st.a ++ word_le_bytes st.b ++ word_le_bytes st.c ++ word_le_bytes st.d

/-- `hashlib.md5(msg).hexdigest()`: the 32 lowercase hex characters of the
digest. -/
def md5_hexdigest (msg : List Nat) : String :=
  String.mk ((md5_digest_bytes msg).map byte_hex).flatten

/-- MatchingService.generate_cache_key: md5 of the canonically serialized
quiz payload, prefixed with the client id. -/
def generate_cache_key (client_id : String) (quiz_data : Json) : String :=
  "match:" ++ client_id ++ ":" ++ md5_hexdigest (utf8_encode (Json.dumps (Json.canon quiz_data)))

/-! ## Text utilities used by the scorers -/

/-- Python `s.lower()` (character-wise lowercasing; the texts the engine
compares are ASCII). -/
def str_lower (s : String) : String := String.mk (s.data.map Char.toLower)

/-- Python `" ".join(parts)`. -/
def join_space (parts : List String) : String := String.intercalate " " parts

/-- Accumulator pass behind split_ws: split on whitespace runs, dropping
empty pieces. -/
def words_aux : List Char → List Char → List String
  | [], acc => if acc.isEmpty then [] else [String.mk acc.reverse]
  | c :: cs, acc =>
    if c.isWhitespace then
      (if acc.isEmpty then words_aux cs [] else String.mk acc.reverse :: words_aux cs [])
    else words_aux cs (c :: acc)

/-- Python `s.split()`: whitespace-run tokenization with no empty tokens. -/
def split_ws (s : String) : List String := words_aux s.data []

/-- The set of lowercased whitespace-separated words of a text
(`set(text.lower().split())`). -/
def word_set (s : String) : Finset String := (split_ws (str_lower s)).toFinset

/-! ## Rule-based scorers (MatchingService) -/

/-- MatchingService.calculate_language_score: case-insensitive Jaccard
similarity of the two language lists, 0.0 when either list is empty. -/
def calculate_language_score (client_languages coach_languages : List String) : ℚ :=
  if client_languages = [] ∨ coach_languages = [] then 0
  else
    let client_set := (client_languages.map str_lower).toFinset
    let coach_set := (coach_languages.map str_lower).toFinset
    let intersection := (client_set ∩ coach_set).card
    let union := (client_set ∪ coach_set).card
    if union > 0 then (intersection : ℚ) / (union : ℚ) else 0

/-- MatchingService.calculate_country_score: same Jaccard computation over
the country lists. -/
def calculate_country_score (client_countries coach_countries : List String) : ℚ :=
  if client_countries = [] ∨ coach_countries = [] then 0
  else
    let client_set := (client_countries.map str_lower).toFinset
    let coach_set := (coach_countries.map str_lower).toFinset
    let intersection := (client_set ∩ coach_set).card
    let union := (client_set ∪ coach_set).card
    if union > 0 then (intersection : ℚ) / (union : ℚ) else 0

/-- MatchingService.calculate_budget_score.  The division
`(coach_rate - client_budget_max) / client_budget_max` is a Python
ZeroDivisionError when client_budget_max is 0, modelled as none. -/
def calculate_budget_score (client_budget_max coach_rate : ℚ) : Option ℚ :=
  if coach_rate ≤ 0 then some (1 / 2)
  else if coach_rate ≤ client_budget_max then some 1
  else if client_budget_max = 0 then none
  else
    let overage := (coach_rate - client_budget_max) / client_budget_max
    if overage ≤ 1 / 5 then some (1 / 2) else some 0

/-- MatchingService.calculate_availability_score: 0.5 when the coach's
availability payload is falsy, otherwise 1.0 (presence-only check; the
client timezone is accepted but unused, as in the source). -/
def calculate_availability_score (client_timezone : String) (coach_availability : Json) : ℚ :=
  if coach_availability.falsy then 1 / 2
  else
    let has_availability := !coach_availability.falsy
    if has_availability then 1 else 0

/-! ## Semantic scorer -/

/-- numpy dot product of two equal-length float vectors. -/
def dot_q (v1 v2 : List ℚ) : ℚ := (List.zipWith (fun x y => x * y) v1 v2).sum

/-- Sum of squares (the square of the numpy 2-norm). -/
def sum_sq (v : List ℚ) : ℚ := (v.map (fun x => x * x)).sum

/-- MatchingService.cosine_similarity: dot(v1, v2) / (norm(v1) * norm(v2)),
with 0.0 for an empty vector or a zero norm.  Vector components are the
floats the provider returns (rationals); the norms need a real square
root. -/
noncomputable def cosine_similarity (vec1 vec2 : List ℚ) : ℝ :=
  if vec1 = [] ∨ vec2 = [] then 0
  else
    let dot_product := dot_q vec1 vec2
    let norm_v1 := Real.sqrt ((sum_sq vec1 : ℚ) : ℝ)
    let norm_v2 := Real.sqrt ((sum_sq vec2 : ℚ) : ℝ)
    if norm_v1 = 0 ∨ norm_v2 = 0 then 0 else (dot_product : ℝ) / (norm_v1 * norm_v2)

/-- Word-level Jaccard similarity of two texts, the deterministic fallback
inside calculate_goal_expertise_score (`set(text.lower().split())` on each
side, intersection over union, 0.0 for an empty union). -/
def lexical_jaccard (client_text coach_text : String) : ℚ :=
  let client_words := word_set client_text
  let coach_words := word_set coach_text
  let intersection := (client_words ∩ coach_words).card
  let union := (client_words ∪ coach_words).card
  if union > 0 then (intersection : ℚ) / (union : ℚ) else 0

/-- MatchingService.calculate_goal_expertise_score.  The embedding provider
(get_text_embedding) is an oracle: none models an OpenAI error, a timeout,
or no configured API key; Python's `not embedding` is also true for an
empty vector, hence the extra emptiness test on a successful call. -/
noncomputable def calculate_goal_expertise_score (embed : String → Option (List ℚ))
    (client_goals client_challenges coach_expertise : List String) : ℝ :=
  if (client_goals = [] ∧ client_challenges = []) ∨ coach_expertise = [] then 0
  else
    let client_text := join_space (client_goals ++ client_challenges)
    let coach_text := join_space coach_expertise
    match embed client_text, embed coach_text with
    | some v1, some v2 =>
        if v1 = [] ∨ v2 = [] then (lexical_jaccard client_text coach_text : ℝ)
        else cosine_similarity v1 v2
    | _, _ => (lexical_jaccard client_text coach_text : ℝ)

/-! ## Profile rows and feature normalization -/

/-- The fields of a ClientProfile row the matching engine reads. -/
structure ClientProfileRow where
  user_id : String
  quiz_data : List (String × Json)
  timezone : Option String

/-- The fields of a CoachProfile row the matching engine reads
(user_is_active is the joined users.is_active column).  The array and
rate columns are nullable; rating defaults to 0.0 in the schema and is
modelled total. -/
structure CoachProfileRow where
  id : String
  user_id : String
  first_name : Option String
  last_name : Option String
  photo_url : Option String
  bio : Option String
  expertise : Option (List String)
  languages : Option (List String)
  countries : Option (List String)
  hourly_rate : Option ℚ
  currency : String
  rating : ℚ
  total_sessions : Int
  is_verified : Bool
  availability : Option Json
  user_is_active : Bool

/-- Python dict `.get(key, default)` on a JSON object's fields. -/
def dict_get (d : List (String × Json)) (k : String) (default : Json) : Json :=
  match d.find? (fun p => p.1 == k) with
  | some p => p.2
  | none => default

/-- The value list of a JSON array of strings (the quiz payloads the
pipeline processes hold strings in their list fields). -/
def Json.asStringList : Json → List String
  | .arr l => l.filterMap (fun j => match j with | .str s => some s | _ => none)
  | _ => []

/-- The string content of a JSON string value. -/
def Json.asString : Json → String
  | .str s => s
  | _ => ""

/-- The numeric content of a JSON integer value. -/
def Json.asRat : Json → ℚ
  | .int n => (n : ℚ)
  | _ => 0

/-- The integer content of a JSON integer value. -/
def Json.asInt : Json → Int
  | .int n => n
  | _ => 0

/-- The boolean content of a JSON boolean value. -/
def Json.asBool : Json → Bool
  | .bool b => b
  | _ => false

/-- The field list of a JSON object value. -/
def Json.asObj : Json → List (String × Json)
  | .obj l => l
  | _ => []

/-- The normalized client feature set (normalize_client_data's output). -/
structure ClientData where
  languages : List String
  countries : List String
  goals : List String
  challenges : List String
  industry : String
  coaching_style : String
  budget_min : ℚ
  budget_max : ℚ
  timeline_urgency : Int
  previous_experience : Bool
  family_status : String
  timezone : String

/-- The normalized coach feature set (normalize_coach_data's output). -/
structure CoachData where
  languages : List String
  countries : List String
  expertise : List String
  hourly_rate : ℚ
  rating : ℚ
  total_sessions : Int
  is_verified : Bool
  availability : Json

/-- MatchingService.normalize_client_data: every quiz factor is read with
a default (`quiz.get(...)`), so normalization never fails; an empty or
missing timezone falls back to UTC (`client.timezone or 'UTC'`). -/
def normalize_client_data (client : ClientProfileRow) : ClientData :=
  let quiz := client.quiz_data
  { languages := (dict_get quiz "preferred_languages" (.arr [])).asStringList
    countries := (dict_get quiz "target_countries" (.arr [])).asStringList
    goals := (dict_get quiz "cultural_goals" (.arr [])).asStringList
    challenges := (dict_get quiz "specific_challenges" (.arr [])).asStringList
    industry := (dict_get quiz "industry" (.str "")).asString
    coaching_style := (dict_get quiz "coaching_style" (.str "")).asString
    budget_min := (dict_get ((dict_get quiz "budget_range" (.obj [])).asObj) "min" (.int 0)).asRat
    budget_max := (dict_get ((dict_get quiz "budget_range" (.obj [])).asObj) "max" (.int 500)).asRat
    timeline_urgency := (dict_get quiz "timeline_urgency" (.int 3)).asInt
    previous_experience := (dict_get quiz "previous_expat_experience" (.bool false)).asBool
    family_status := (dict_get quiz "family_status" (.str "")).asString
    timezone := match client.timezone with
      | some s => if s = "" then "UTC" else s
      | none => "UTC" }

/-- MatchingService.normalize_coach_data: nullable columns default to
empty (`x or []`, `float(x) if x else 0`, `x or {}`). -/
def normalize_coach_data (coach : CoachProfileRow) : CoachData :=
  { languages := coach.languages.getD []
    countries := coach.countries.getD []
    expertise := coach.expertise.getD []
    hourly_rate := coach.hourly_rate.getD 0
    rating := coach.rating
    total_sessions := coach.total_sessions
    is_verified := coach.is_verified
    availability := match coach.availability with
      | some j => if j.falsy then .obj [] else j
      | none => .obj [] }

/-- MatchingService.calculate_match_score: the weighted sum of the five
component scores, times 100, clamped above at 100.0.  A ZeroDivisionError
in the budget scorer propagates (none). -/
noncomputable def calculate_match_score (embed : String → Option (List ℚ))
    (client_data : ClientData) (coach_data : CoachData) : Option ℝ :=
  let language_score := calculate_language_score client_data.languages coach_data.languages
  let country_score := calculate_country_score client_data.countries coach_data.countries
  let goal_score := calculate_goal_expertise_score embed
    client_data.goals client_data.challenges coach_data.expertise
  match calculate_budget_score client_data.budget_max coach_data.hourly_rate with
  | none => none
  | some budget_score =>
    let availability_score := calculate_availability_score
      client_data.timezone coach_data.availability
    let total_score : ℝ :=
      ((language_score : ℝ) * 0.25 + (country_score : ℝ) * 0.20 + goal_score * 0.30 +
        (budget_score : ℝ) * 0.15 + (availability_score : ℝ) * 0.10) * 100
    some (min total_score 100)

/-! ## Ranking pipeline (find_matches) -/

/-- Python banker's rounding of a real to the nearest integer. -/
noncomputable def py_round_half_even (x : ℝ) : ℤ :=
  if x - ⌊x⌋ < 1 / 2 then ⌊x⌋
  else if 1 / 2 < x - ⌊x⌋ then ⌊x⌋ + 1
  else if Even ⌊x⌋ then ⌊x⌋ else ⌊x⌋ + 1

/-- Python `round(x, 2)` on the modelled float value. -/
noncomputable def py_round2 (x : ℝ) : ℝ := (py_round_half_even (x * 100) : ℝ) / 100

/-- One result dictionary produced by find_matches / get_fallback_matches
(the shape CoachMatchResult expects). -/
structure MatchEntry where
  coach_id : String
  user_id : String
  first_name : Option String
  last_name : Option String
  photo_url : Option String
  bio : Option String
  expertise : Option (List String)
  languages : Option (List String)
  countries : Option (List String)
  hourly_rate : Option ℚ
  currency : String
  rating : ℚ
  total_sessions : Int
  is_verified : Bool
  match_score : ℝ
  confidence_score : ℝ

/-- The order produced by
`matches.sort(key=lambda x: (x['match_score'], x['rating']), reverse=True)`:
descending lexicographic on the (match_score, rating) pair. -/
def entry_ge (e1 e2 : MatchEntry) : Prop :=
  e2.match_score < e1.match_score ∨
    (e1.match_score = e2.match_score ∧ e2.rating ≤ e1.rating)

noncomputable instance : DecidableRel entry_ge := fun _ _ => Classical.propDecidable _

instance : IsTotal MatchEntry entry_ge := by
  constructor
  intro a b
  rcases lt_trichotomy a.match_score b.match_score with h | h | h
  · exact Or.inr (Or.inl h)
  · rcases le_total a.rating b.rating with hr | hr
    · exact Or.inr (Or.inr ⟨h.symm, hr⟩)
    · exact Or.inl (Or.inr ⟨h, hr⟩)
  · exact Or.inl (Or.inl h)

instance : IsTrans MatchEntry entry_ge := by
  constructor
  intro a b c hab hbc
  rcases hab with h1 | ⟨h1, r1⟩ <;> rcases hbc with h2 | ⟨h2, r2⟩
  · exact Or.inl (h2.trans h1)
  · exact Or.inl (h2 ▸ h1)
  · exact Or.inl (h1 ▸ h2)
  · exact Or.inr ⟨h1.trans h2, r2.trans r1⟩

/-- Descending order on coach rating, the ORDER BY of
CoachProfileRepository.get_active_coaches. -/
def rating_ge (c1 c2 : CoachProfileRow) : Prop := c2.rating ≤ c1.rating

instance : DecidableRel rating_ge := fun c1 c2 => inferInstanceAs (Decidable (c2.rating ≤ c1.rating))

instance : IsTotal CoachProfileRow rating_ge := ⟨fun a b => le_total b.rating a.rating⟩

instance : IsTrans CoachProfileRow rating_ge := ⟨fun _ _ _ h1 h2 => h2.trans h1⟩

/-- CoachProfileRepository.get_active_coaches: verified coaches whose user
is active, ordered by rating descending, with offset and limit.  The
database list stands in for the table; ties keep their table order (one
deterministic refinement of the unordered SQL result). -/
def get_active_coaches (db : List CoachProfileRow) (skip limit : ℕ) : List CoachProfileRow :=
  ((List.insertionSort rating_ge (db.filter (fun c => c.is_verified && c.user_is_active))).drop skip).take limit

/-- The result dictionary find_matches builds for a scored coach
(match_score and confidence_score are the rounded score;
`float(coach.hourly_rate) if coach.hourly_rate else None`). -/
noncomputable def find_matches_entry (coach : CoachProfileRow) (score : ℝ) : MatchEntry :=
  { coach_id := coach.id
    user_id := coach.user_id
    first_name := coach.first_name
    last_name := coach.last_name
    photo_url := coach.photo_url
    bio := coach.bio
    expertise := coach.expertise
    languages := coach.languages
    countries := coach.countries
    hourly_rate := coach.hourly_rate.bind (fun r => if r = 0 then none else some r)
    currency := coach.currency
    rating := coach.rating
    total_sessions := coach.total_sessions
    is_verified := coach.is_verified
    match_score := py_round2 score
    confidence_score := py_round2 score }

/-- The result dictionary get_fallback_matches builds: identical display
fields but match_score and confidence_score pinned to 0.0. -/
noncomputable def fallback_entry (coach : CoachProfileRow) : MatchEntry :=
  { coach_id := coach.id
    user_id := coach.user_id
    first_name := coach.first_name
    last_name := coach.last_name
    photo_url := coach.photo_url
    bio := coach.bio
    expertise := coach.expertise
    languages := coach.languages
    countries := coach.countries
    hourly_rate := coach.hourly_rate.bind (fun r => if r = 0 then none else some r)
    currency := coach.currency
    rating := coach.rating
    total_sessions := coach.total_sessions
    is_verified := coach.is_verified
    match_score := 0
    confidence_score := 0 }

/-- MatchingService.get_fallback_matches: the top-rated active coaches
(repository query with the caller's limit), no quiz-dependent scoring,
zero scores. -/
noncomputable def get_fallback_matches (db : List CoachProfileRow) (limit : ℕ) : List MatchEntry :=
  (get_active_coaches db 0 limit).map fallback_entry

/-- The environment of one find_matches run: the embedding provider
(none models failure, timeout or a missing API key), which candidates hit
the per-candidate asyncio.wait_for timeout, and whether an unexpected
exception fires inside the pipeline's try block. -/
structure MatchEnv where
  embed : String → Option (List ℚ)
  cand_timeout : CoachProfileRow → Bool
  pipeline_error : Bool

/-- The per-candidate loop of find_matches: a candidate whose scoring
times out is skipped (`except asyncio.TimeoutError: continue`); any other
exception (the budget ZeroDivisionError) escapes the loop (none). -/
noncomputable def score_candidates (env : MatchEnv) (client_data : ClientData) :
    List CoachProfileRow → Option (List MatchEntry)
  | [] => some []
  | coach :: rest =>
    if env.cand_timeout coach then score_candidates env client_data rest
    else
      match calculate_match_score env.embed client_data (normalize_coach_data coach) with
      | none => none
      | some score =>
        match score_candidates env client_data rest with
        | none => none
        | some entries => some (find_matches_entry coach score :: entries)

/-- MatchingService.find_matches: normalize, fetch up to 100 active
coaches, score each candidate, sort descending by (match_score, rating),
truncate to the limit.  An empty candidate list returns [].  Any exception
inside the try block (modelled by pipeline_error, or an exception escaping
the scoring loop) degrades to get_fallback_matches. -/
noncomputable def find_matches (env : MatchEnv) (db : List CoachProfileRow)
    (client : ClientProfileRow) (limit : ℕ) : List MatchEntry :=
  if env.pipeline_error then get_fallback_matches db limit
  else
    let client_data := normalize_client_data client
    let coaches := get_active_coaches db 0 100
    if coaches.isEmpty then []
    else
      match score_candidates env client_data coaches with
      | none => get_fallback_matches db limit
      | some scored => (List.insertionSort entry_ge scored).take limit

/-! ## Quiz validation and the matching endpoint -/

/-- The ten required quiz factors of ClientProfile.validate_quiz_data. -/
def required_fields : List String :=
  ["target_countries", "cultural_goals", "preferred_languages", "industry",
   "family_status", "previous_expat_experience", "timeline_urgency",
   "budget_range", "coaching_style", "specific_challenges"]

/-- ClientProfile.validate_quiz_data: false for a falsy (absent or empty)
payload, otherwise key membership of every required factor. -/
def validate_quiz_data (quiz_data : List (String × Json)) : Bool :=
  if quiz_data.isEmpty then false
  else required_fields.all (fun f => quiz_data.any (fun p => p.1 == f))

/-- The MatchRequest schema: limit defaults to 10 and is constrained to
1..50 (Field ge=1, le=50), use_cache defaults to True. -/
structure MatchRequest where
  limit : ℕ
  use_cache : Bool

/-- The schema constraint on a MatchRequest. -/
def MatchRequest.valid (r : MatchRequest) : Prop := 1 ≤ r.limit ∧ r.limit ≤ 50

/-- The default MatchRequest. -/
def default_match_request : MatchRequest := ⟨10, true⟩

/-- The payload set_match_cache stores and get_match_cache returns. -/
structure CachedPayload where
  «matches» : List MatchEntry
  total_matches : ℕ
  generated_at : String

/-- The body of the endpoint's MatchResponse. -/
structure MatchResponse where
  «matches» : List MatchEntry
  total_matches : ℕ
  cached : Bool
  generated_at : String

/-- The client-visible failures of the matching operation:
validation_error is HTTP 400 (incomplete quiz data); internal_error is
the HTTP 500 the router's `except Exception` raises when an exception
other than asyncio.TimeoutError escapes the try block. -/
inductive MatchApiError where
  | validation_error : MatchApiError
  | internal_error : MatchApiError
deriving DecidableEq

/-- get_match_cache on the modelled cache state (an association list of
keys to payloads, the content a reachable Redis would return). -/
def cache_get (cache : List (String × CachedPayload)) (key : String) : Option CachedPayload :=
  (cache.find? (fun p => p.1 == key)).map Prod.snd

/-- The state of the global CacheService instance during one request:
is_available records whether Redis answered the ping when the service
was constructed; set_raises records whether the setex call of this
request's cache write raises a RedisError (store reachable at startup,
connection lost mid-request). -/
structure CacheStoreState where
  is_available : Bool
  set_raises : Bool

/-- CacheService.set as called by set_match_cache.  When the store was
unavailable at construction it returns False without touching Redis (no
write, some []).  On success it performs the write (some [(key,
payload)]).  But when setex raises a RedisError, the handler clause
`except (RedisError, TypeError, json.JSONEncodeError)` is evaluated and
json.JSONEncodeError does not exist in the stdlib json module, so
matching the exception raises AttributeError instead of returning False:
the exception escapes set_match_cache (none). -/
def cache_service_set (store : CacheStoreState) (key : String) (payload : CachedPayload) :
    Option (List (String × CachedPayload)) :=
  if !store.is_available then some []
  else if store.set_raises then none
  else some [(key, payload)]

/-- The matching endpoint (routers/matching.py get_coach_matches) after
role and profile resolution: validate the quiz payload first (fail fast,
HTTP 400), derive the cache key, serve a cached payload if requested and
the store is reachable (CacheService.get fails open), otherwise run
find_matches and hand the outcome to set_match_cache with a 24-hour TTL.
The second component of a successful result is the list of cache writes
performed.  A cache write that raises (cache_service_set none, the
broken except clause) reaches the router's `except Exception` and the
request fails with HTTP 500.  The router's `except asyncio.TimeoutError`
branch, which would skip the cache write, is unreachable: find_matches
catches every exception internally and returns fallback results as a
normal value, so the router also caches fallback results. -/
noncomputable def get_coach_matches (env : MatchEnv) (store : CacheStoreState)
    (db : List CoachProfileRow) (client : ClientProfileRow) (request : MatchRequest)
    (cache : List (String × CachedPayload)) (now : String) :
    Except MatchApiError (MatchResponse × List (String × CachedPayload)) :=
  if !validate_quiz_data client.quiz_data then .error .validation_error
  else
    let cache_key := generate_cache_key client.user_id (Json.obj client.quiz_data)
    let cached_results := if request.use_cache then
        (if store.is_available then cache_get cache cache_key else none)
      else none
    match cached_results with
    | some payload =>
        .ok ({ «matches» := payload.matches, total_matches := payload.total_matches,
               cached := true, generated_at := payload.generated_at }, [])
    | none =>
        let results := find_matches env db client request.limit
        match cache_service_set store cache_key ⟨results, results.length, now⟩ with
        | none => .error .internal_error
        | some writes =>
            .ok ({ «matches» := results, total_matches := results.length,
                   cached := false, generated_at := now }, writes)

/-! ## Cache invalidation (utils/cache_utils.py) -/

/-- Redis glob matching restricted to the shapes the code derives
(literal characters and the * wildcard; the patterns built by the cache
utilities contain no ?, [ or ] metacharacters). -/
def glob_match (pat s : List Char) : Bool :=
  match pat, s with
  | [], [] => true
  | [], _ :: _ => false
  | '*' :: ps, [] => glob_match ps []
  | '*' :: ps, c :: cs => glob_match ps (c :: cs) || glob_match ('*' :: ps) cs
  | _ :: _, [] => false
  | p :: ps, c :: cs => p == c && glob_match ps cs
termination_by (pat.length, s.length)

/-- CacheService.delete_pattern: remove every key matching the glob
pattern (redis KEYS followed by DELETE). -/
def delete_pattern {α : Type} (pattern : String) (cache : List (String × α)) : List (String × α) :=
  cache.filter (fun p => !glob_match pattern.data p.1.data)

/-- invalidate_client_match_cache: delete_pattern("match:<client_id>:*"). -/
def invalidate_client_match_cache {α : Type} (client_id : String)
    (cache : List (String × α)) : List (String × α) :=
  delete_pattern ("match:" ++ client_id ++ ":*") cache

/-! ## Shared lemmas -/

lemma jaccard_if_bounds (A B : Finset String) :
    0 ≤ (if (A ∪ B).card > 0 then ((A ∩ B).card : ℚ) / ((A ∪ B).card : ℚ) else 0) ∧
    (if (A ∪ B).card > 0 then ((A ∩ B).card : ℚ) / ((A ∪ B).card : ℚ) else 0) ≤ 1 := by
  split
  · constructor
    · positivity
    · rename_i h
      rw [div_le_one (by exact_mod_cast h)]
      exact_mod_cast Finset.card_le_card (Finset.inter_subset_left.trans Finset.subset_union_left)
  · norm_num

lemma jaccard_if_self (A : Finset String) (h : A.Nonempty) :
    (if (A ∪ A).card > 0 then ((A ∩ A).card : ℚ) / ((A ∪ A).card : ℚ) else 0) = 1 := by
  rw [Finset.union_self, Finset.inter_self, if_pos (Finset.card_pos.mpr h)]
  rw [div_self]
  exact_mod_cast (Finset.card_pos.mpr h).ne'

lemma country_eq_language (l1 l2 : List String) :
    calculate_country_score l1 l2 = calculate_language_score l1 l2 := rfl

lemma language_score_symm (l1 l2 : List String) :
    calculate_language_score l1 l2 = calculate_language_score l2 l1 := by
  simp only [calculate_language_score]
  by_cases h1 : l1 = [] <;> by_cases h2 : l2 = [] <;>
    simp [h1, h2, Finset.inter_comm, Finset.union_comm]

/-- The common Jaccard body on two lists with equal lowered sets, the left
one nonempty, is 1. -/
lemma language_score_of_eq_sets (l1 l2 : List String)
    (hs : (l1.map str_lower).toFinset = (l2.map str_lower).toFinset)
    (h1 : l1 ≠ []) :
    calculate_language_score l1 l2 = 1 := by
  have hA : ((l1.map str_lower).toFinset : Finset String).Nonempty := by
    cases l1 with
    | nil => exact absurd rfl h1
    | cons x xs => exact ⟨str_lower x, by simp⟩
  have h2 : l2 ≠ [] := by
    intro h
    rw [h] at hs
    simp only [List.map_nil, List.toFinset_nil] at hs
    rw [hs] at hA
    exact Finset.not_nonempty_empty hA
  simp only [calculate_language_score]
  rw [if_neg (show ¬(l1 = [] ∨ l2 = []) by simp [h1, h2]), hs]
  exact jaccard_if_self _ (hs ▸ hA)

lemma language_score_bounds (l1 l2 : List String) :
    0 ≤ calculate_language_score l1 l2 ∧ calculate_language_score l1 l2 ≤ 1 := by
  by_cases h : l1 = [] ∨ l2 = []
  · simp [calculate_language_score, h]
  · simp only [calculate_language_score, if_neg h]
    exact jaccard_if_bounds _ _

/-- C10: the language and country scorers are case-insensitive Jaccard
similarities: symmetric for all input lists, 0.0 when either list is
empty, 1.0 when the lowered sets are identical and nonempty, and always
within [0, 1]. -/
theorem language_country_scorers_symmetric_jaccard (l1 l2 : List String) :
    (calculate_language_score l1 l2 = calculate_language_score l2 l1 ∧
      calculate_country_score l1 l2 = calculate_country_score l2 l1) ∧
    (l1 = [] ∨ l2 = [] →
      calculate_language_score l1 l2 = 0 ∧ calculate_country_score l1 l2 = 0) ∧
    ((l1.map str_lower).toFinset = (l2.map str_lower).toFinset → l1 ≠ [] →
      calculate_language_score l1 l2 = 1 ∧ calculate_country_score l1 l2 = 1) ∧
    (0 ≤ calculate_language_score l1 l2 ∧ calculate_language_score l1 l2 ≤ 1 ∧
      0 ≤ calculate_country_score l1 l2 ∧ calculate_country_score l1 l2 ≤ 1) := by
  refine ⟨⟨language_score_symm l1 l2, ?_⟩, ?_, ?_, ?_⟩
  · rw [country_eq_language, country_eq_language]
    exact language_score_symm l1 l2
  · intro h
    rw [country_eq_language]
    constructor <;> simp [calculate_language_score, h]
  · intro hs h1
    rw [country_eq_language]
    exact ⟨language_score_of_eq_sets l1 l2 hs h1, language_score_of_eq_sets l1 l2 hs h1⟩
  · rw [country_eq_language]
    exact ⟨(language_score_bounds l1 l2).1, (language_score_bounds l1 l2).2,
      (language_score_bounds l1 l2).1, (language_score_bounds l1 l2).2⟩

/-- C10 witness: the scorer properties applied at concrete lists, each
hypothesis discharged there. -/
theorem language_country_scorers_witness :
    calculate_language_score ["English", "Spanish"] ["spanish", "ENGLISH"] = 1 ∧
    calculate_country_score [] ["spain"] = 0 := by
  refine ⟨((language_country_scorers_symmetric_jaccard ["English", "Spanish"]
    ["spanish", "ENGLISH"]).2.2.1 (by decide) (by decide)).1, ?_⟩
  exact ((language_country_scorers_symmetric_jaccard ([] : List String) ["spain"]).2.1
    (Or.inl rfl)).2

lemma lexical_jaccard_bounds (t1 t2 : String) :
    0 ≤ lexical_jaccard t1 t2 ∧ lexical_jaccard t1 t2 ≤ 1 := by
  simp only [lexical_jaccard]
  exact jaccard_if_bounds _ _

/-- C6: the semantic scorer returns 0.0 when either input side is empty,
and whenever either embedding call fails (none: provider error, timeout,
or no configured provider) it returns the word-level Jaccard similarity of
the joined lower-cased texts, a deterministic value in [0, 1]; being a
total function, it never raises past its caller. -/
theorem goal_expertise_lexical_fallback (embed : String → Option (List ℚ))
    (client_goals client_challenges coach_expertise : List String) :
    ((client_goals = [] ∧ client_challenges = []) ∨ coach_expertise = [] →
      calculate_goal_expertise_score embed client_goals client_challenges coach_expertise = 0) ∧
    (¬((client_goals = [] ∧ client_challenges = []) ∨ coach_expertise = []) →
      embed (join_space (client_goals ++ client_challenges)) = none ∨
        embed (join_space coach_expertise) = none →
      calculate_goal_expertise_score embed client_goals client_challenges coach_expertise =
        (lexical_jaccard (join_space (client_goals ++ client_challenges))
          (join_space coach_expertise) : ℝ) ∧
      0 ≤ lexical_jaccard (join_space (client_goals ++ client_challenges))
            (join_space coach_expertise) ∧
      lexical_jaccard (join_space (client_goals ++ client_challenges))
        (join_space coach_expertise) ≤ 1) := by
  constructor
  · intro h
    simp only [calculate_goal_expertise_score, if_pos h]
  · intro h hor
    refine ⟨?_, (lexical_jaccard_bounds _ _).1, (lexical_jaccard_bounds _ _).2⟩
    simp only [calculate_goal_expertise_score, if_neg h]
    rcases hor with h1 | h2
    · rw [h1]
    · cases he : embed (join_space (client_goals ++ client_challenges)) with
      | none => rfl
      | some v1 => rw [h2]

/-- C6 witness: a concrete run with a failing provider, hypotheses
discharged at the input. -/
theorem goal_expertise_fallback_witness :
    calculate_goal_expertise_score (fun _ => none) ["cultural"] [] ["cultural"] =
      (lexical_jaccard (join_space (["cultural"] ++ [])) (join_space ["cultural"]) : ℝ) :=
  ((goal_expertise_lexical_fallback (fun _ => none) ["cultural"] [] ["cultural"]).2
    (by decide) (Or.inl rfl)).1

/-- C5: calculate_budget_score matches the spec's case analysis whenever
client_budget_max is positive (or the rate is within budget or unset), but
the overage computation divides by client_budget_max: with budget_max = 0
and a positive over-budget rate the code raises ZeroDivisionError (none)
instead of returning a score. -/
theorem calculate_budget_score_cases :
    calculate_budget_score 0 100 = none ∧
    (∀ bmax rate : ℚ, rate ≤ 0 → calculate_budget_score bmax rate = some 0.5) ∧
    (∀ bmax rate : ℚ, 0 < rate → rate ≤ bmax → calculate_budget_score bmax rate = some 1) ∧
    (∀ bmax rate : ℚ, 0 < bmax → bmax < rate → rate ≤ bmax + bmax / 5 →
      calculate_budget_score bmax rate = some 0.5) ∧
    (∀ bmax rate : ℚ, 0 < bmax → bmax + bmax / 5 < rate →
      calculate_budget_score bmax rate = some 0) := by
  refine ⟨by decide, ?_, ?_, ?_, ?_⟩
  · intro bmax rate h
    simp only [calculate_budget_score, if_pos h]
    norm_num
  · intro bmax rate h0 hle
    simp only [calculate_budget_score]
    rw [if_neg (not_le.mpr h0), if_pos hle]
  · intro bmax rate hb hbr hle
    have hov : (rate - bmax) / bmax ≤ 1 / 5 := by
      rw [div_le_div_iff₀ (by positivity) (by norm_num)]
      linarith
    simp only [calculate_budget_score]
    rw [if_neg (not_le.mpr (hb.trans hbr)), if_neg (not_le.mpr hbr), if_neg hb.ne',
      if_pos hov]
    norm_num
  · intro bmax rate hb hgt
    have hbr : bmax < rate := by
      have : 0 < bmax / 5 := by positivity
      linarith
    have hov : ¬((rate - bmax) / bmax ≤ 1 / 5) := by
      rw [not_le, div_lt_div_iff₀ (by norm_num) (by positivity)]
      linarith
    simp only [calculate_budget_score]
    rw [if_neg (not_le.mpr (hb.trans hbr)), if_neg (not_le.mpr hbr), if_neg hb.ne',
      if_neg hov]

/-- C5 witness: concrete rates in the live branches, hypotheses discharged
at the inputs. -/
theorem calculate_budget_score_witness :
    calculate_budget_score 100 110 = some 0.5 ∧ calculate_budget_score 100 50 = some 1 :=
  ⟨calculate_budget_score_cases.2.2.2.1 100 110 (by norm_num) (by norm_num) (by norm_num),
   calculate_budget_score_cases.2.2.1 100 50 (by norm_num) (by norm_num)⟩

/-! ## C1 / C2: the weighted match score -/

/-- An embedding provider returning a unit vector for the client text and
its negation for the coach text. -/
def c1_embed : String → Option (List ℚ) := fun s => if s = "g" then some [1] else some [-1]

/-- A valid client feature set: no languages or countries selected, one
goal, budget up to 100. -/
def c1_client : ClientData := ⟨[], [], ["g"], [], "", "", 0, 100, 3, false, "", "UTC"⟩

/-- A coach feature set: one expertise tag, rate 200 (over budget by more
than 20 percent), no availability data. -/
def c1_coach : CoachData := ⟨[], [], ["e"], 200, 0, 0, true, Json.obj []⟩

/-- C1 (failing evaluation): with embeddings of opposite direction the
cosine similarity is -1 and calculate_match_score returns -25.0, outside
[0.0, 100.0] — only the upper bound is clamped. -/
theorem calculate_match_score_negative :
    calculate_match_score c1_embed c1_client c1_coach = some (-25) ∧ ((-25 : ℝ) < 0) := by
  refine ⟨?_, by norm_num⟩
  have hsem : calculate_goal_expertise_score c1_embed ["g"] [] ["e"] = -1 := by
    have e1 : c1_embed (join_space (["g"] ++ [])) = some [1] := by decide
    have e2 : c1_embed (join_space ["e"]) = some [-1] := by decide
    simp only [calculate_goal_expertise_score]
    rw [if_neg (by decide), e1, e2]
    dsimp only
    rw [if_neg (show ¬(([1] : List ℚ) = [] ∨ ([-1] : List ℚ) = []) by simp)]
    simp only [cosine_similarity]
    rw [if_neg (show ¬(([1] : List ℚ) = [] ∨ ([-1] : List ℚ) = []) by simp)]
    have hs1 : sum_sq [1] = 1 := by norm_num [sum_sq]
    have hs2 : sum_sq [-1] = 1 := by norm_num [sum_sq]
    have hd : dot_q [1] [-1] = -1 := by norm_num [dot_q]
    rw [hs1, hs2, hd]
    norm_num [Real.sqrt_one]
  have hb : calculate_budget_score (100 : ℚ) 200 = some 0 := by norm_num [calculate_budget_score]
  have hlang : calculate_language_score ([] : List String) [] = 0 := rfl
  have havail : calculate_availability_score "UTC" (Json.obj []) = 1 / 2 := rfl
  simp only [calculate_match_score, c1_client, c1_coach]
  rw [hsem, hb]
  dsimp only
  rw [country_eq_language, hlang, havail]
  norm_num

/-- The closed form of calculate_match_score when the budget scorer
returns a value. -/
lemma match_score_eq (embed : String → Option (List ℚ)) (cd : ClientData) (co : CoachData)
    (b : ℚ) (hb : calculate_budget_score cd.budget_max co.hourly_rate = some b) :
    calculate_match_score embed cd co =
      some (min (100 * ((0.25 : ℝ) * (calculate_language_score cd.languages co.languages : ℝ) +
        (0.20 : ℝ) * (calculate_country_score cd.countries co.countries : ℝ) +
        (0.30 : ℝ) * calculate_goal_expertise_score embed cd.goals cd.challenges co.expertise +
        (0.15 : ℝ) * (b : ℝ) +
        (0.10 : ℝ) * (calculate_availability_score cd.timezone co.availability : ℝ))) 100) := by
  simp only [calculate_match_score]
  rw [hb]
  dsimp only
  exact congrArg (fun x => some (min x (100 : ℝ))) (by ring)

/-- Scenario A's provider: embeddings unavailable, so goal-expertise
alignment comes from the lexical fallback. -/
def scenario_a_embed : String → Option (List ℚ) := fun _ => none

/-- Scenario A client: languages English+Spanish, country Spain, budget
up to 150, one goal. -/
def scenario_a_client : ClientData :=
  ⟨["English", "Spanish"], ["Spain"], ["relocation"], [], "", "", 0, 150, 3, false, "", "UTC"⟩

/-- Scenario A coach: Spanish, Spain, expertise matching the client's
goal exactly, rate 100, rating 4.5, no availability data. -/
def scenario_a_coach : CoachData :=
  ⟨["Spanish"], ["Spain"], ["relocation"], 100, 9 / 2, 120, true, Json.obj []⟩

/-- C2: calculate_match_score is exactly 100 times the weighted component
sum (weights 0.25, 0.20, 0.30, 0.15, 0.10), clamped above at 100.0; at
Scenario A's inputs (component scores 0.5, 1, 1, 1, 0.5) it returns
82.5. -/
theorem calculate_match_score_weighted_formula :
    (∀ (embed : String → Option (List ℚ)) (cd : ClientData) (co : CoachData) (b : ℚ),
      calculate_budget_score cd.budget_max co.hourly_rate = some b →
      calculate_match_score embed cd co =
        some (min (100 * ((0.25 : ℝ) * (calculate_language_score cd.languages co.languages : ℝ) +
          (0.20 : ℝ) * (calculate_country_score cd.countries co.countries : ℝ) +
          (0.30 : ℝ) * calculate_goal_expertise_score embed cd.goals cd.challenges co.expertise +
          (0.15 : ℝ) * (b : ℝ) +
          (0.10 : ℝ) * (calculate_availability_score cd.timezone co.availability : ℝ))) 100)) ∧
    calculate_match_score scenario_a_embed scenario_a_client scenario_a_coach = some 82.5 := by
  refine ⟨match_score_eq, ?_⟩
  have hb : calculate_budget_score scenario_a_client.budget_max scenario_a_coach.hourly_rate
      = some 1 := by
    show calculate_budget_score 150 100 = some 1
    norm_num [calculate_budget_score]
  rw [match_score_eq scenario_a_embed scenario_a_client scenario_a_coach 1 hb]
  have hlang : calculate_language_score scenario_a_client.languages scenario_a_coach.languages
      = 1 / 2 := by
    show calculate_language_score ["English", "Spanish"] ["Spanish"] = 1 / 2
    simp only [calculate_language_score]
    rw [if_neg (by decide)]
    have h1 : (((["English", "Spanish"] : List String).map str_lower).toFinset ∩
        (((["Spanish"] : List String).map str_lower).toFinset)).card = 1 := by decide
    have h2 : (((["English", "Spanish"] : List String).map str_lower).toFinset ∪
        (((["Spanish"] : List String).map str_lower).toFinset)).card = 2 := by decide
    rw [h1, h2]
    norm_num
  have hcountry : calculate_country_score scenario_a_client.countries scenario_a_coach.countries
      = 1 := by
    show calculate_country_score ["Spain"] ["Spain"] = 1
    rw [country_eq_language]
    exact language_score_of_eq_sets _ _ rfl (by decide)
  have hsem : calculate_goal_expertise_score scenario_a_embed
      scenario_a_client.goals scenario_a_client.challenges scenario_a_coach.expertise = 1 := by
    show calculate_goal_expertise_score scenario_a_embed ["relocation"] [] ["relocation"] = 1
    simp only [calculate_goal_expertise_score, scenario_a_embed]
    rw [if_neg (by decide)]
    have hct : join_space (["relocation"] ++ []) = "relocation" := by decide
    have het : join_space ["relocation"] = "relocation" := by decide
    rw [hct, het]
    have hj : lexical_jaccard "relocation" "relocation" = 1 := by
      simp only [lexical_jaccard]
      exact jaccard_if_self _ ⟨"relocation", by decide⟩
    rw [hj]
    norm_num
  have havail : calculate_availability_score scenario_a_client.timezone
      scenario_a_coach.availability = 1 / 2 := rfl
  rw [hlang, hcountry, hsem, havail]
  push_cast
  norm_num [min_def]

/-- C2 witness: the formula applied at Scenario A, the budget hypothesis
discharged there. -/
theorem calculate_match_score_formula_witness :
    calculate_match_score scenario_a_embed scenario_a_client scenario_a_coach =
      some (min (100 * ((0.25 : ℝ) *
        (calculate_language_score scenario_a_client.languages scenario_a_coach.languages : ℝ) +
        (0.20 : ℝ) *
          (calculate_country_score scenario_a_client.countries scenario_a_coach.countries : ℝ) +
        (0.30 : ℝ) * calculate_goal_expertise_score scenario_a_embed
          scenario_a_client.goals scenario_a_client.challenges scenario_a_coach.expertise +
        (0.15 : ℝ) * ((1 : ℚ) : ℝ) +
        (0.10 : ℝ) * (calculate_availability_score scenario_a_client.timezone
          scenario_a_coach.availability : ℝ))) 100) :=
  calculate_match_score_weighted_formula.1 scenario_a_embed scenario_a_client scenario_a_coach 1
    (by norm_num [calculate_budget_score, scenario_a_client, scenario_a_coach])

/-! ## C7: ranking, truncation, empty candidate set -/

lemma active_coaches_nil (db : List CoachProfileRow) (skip limit : ℕ)
    (hf : db.filter (fun c => c.is_verified && c.user_is_active) = []) :
    get_active_coaches db skip limit = [] := by
  simp [get_active_coaches, hf, List.insertionSort]

lemma fallback_sorted (db : List CoachProfileRow) (limit : ℕ) :
    (get_fallback_matches db limit).Sorted entry_ge := by
  apply List.pairwise_map.mpr
  apply List.Pairwise.imp (fun h => Or.inr ⟨rfl, h⟩)
  apply List.Pairwise.sublist (List.take_sublist _ _)
  rw [List.drop_zero]
  exact List.sorted_insertionSort rating_ge _

lemma fallback_length (db : List CoachProfileRow) (limit : ℕ) :
    (get_fallback_matches db limit).length ≤ limit := by
  rw [get_fallback_matches, List.length_map, get_active_coaches]
  exact (List.length_take_le _ _)

/-- C7: find_matches always returns a list sorted descending by
(match_score, rating) — rating breaking ties, both descending — of length
at most the caller's limit; with zero active coaches it returns the empty
list.  This holds on the scored path, the internal fallback path, and the
empty-candidate path alike. -/
theorem find_matches_sorted_truncated (env : MatchEnv) (db : List CoachProfileRow)
    (client : ClientProfileRow) (limit : ℕ) :
    (find_matches env db client limit).Sorted entry_ge ∧
    (find_matches env db client limit).length ≤ limit ∧
    (db.filter (fun c => c.is_verified && c.user_is_active) = [] →
      find_matches env db client limit = []) := by
  by_cases hpe : env.pipeline_error = true
  · simp only [find_matches, if_pos hpe]
    exact ⟨fallback_sorted db limit, fallback_length db limit,
      fun hf => by simp [get_fallback_matches, active_coaches_nil db 0 limit hf]⟩
  · simp only [find_matches, if_neg hpe]
    cases hc : (get_active_coaches db 0 100).isEmpty with
    | true =>
      rw [if_pos rfl]
      exact ⟨List.sorted_nil, by simp, fun _ => rfl⟩
    | false =>
      have hne : db.filter (fun c => c.is_verified && c.user_is_active) = [] → False := by
        intro h2
        rw [active_coaches_nil db 0 100 h2] at hc
        simp at hc
      rw [if_neg (by simp)]
      cases hsc : score_candidates env (normalize_client_data client) (get_active_coaches db 0 100) with
      | none =>
        exact ⟨fallback_sorted db limit, fallback_length db limit, fun hf => absurd (hne hf) id⟩
      | some scored =>
        refine ⟨?_, ?_, fun hf => absurd (hne hf) id⟩
        · exact List.Pairwise.sublist (List.take_sublist _ _)
            (List.sorted_insertionSort entry_ge scored)
        · exact List.length_take_le _ _

/-- C7 witness: with no coaches at all, find_matches returns the empty
list; the zero-active-coaches hypothesis is discharged at the input. -/
theorem find_matches_empty_witness :
    find_matches ⟨fun _ => none, fun _ => false, false⟩ [] ⟨"u", [], none⟩ 10 = [] :=
  (find_matches_sorted_truncated ⟨fun _ => none, fun _ => false, false⟩ [] ⟨"u", [], none⟩ 10).2.2 rfl

/-! ## Concrete request fixtures shared by the endpoint claims -/

/-- A quiz payload holding all ten required factors. -/
def c8_quiz : List (String × Json) :=
  [("target_countries", .arr [.str "spain"]),
   ("cultural_goals", .arr [.str "relocation"]),
   ("preferred_languages", .arr [.str "english"]),
   ("industry", .str "tech"),
   ("family_status", .str "single"),
   ("previous_expat_experience", .bool false),
   ("timeline_urgency", .int 3),
   ("budget_range", .obj [("min", .int 0), ("max", .int 100)]),
   ("coaching_style", .str "direct"),
   ("specific_challenges", .arr [.str "visa"])]

/-- A verified, active coach row. -/
def c8_coach : CoachProfileRow :=
  ⟨"c1", "u1", none, none, none, none, some ["relocation"], some ["english"], some ["spain"],
   some 50, "USD", 9 / 2, 0, true, none, true⟩

/-- A client whose quiz payload is complete. -/
def c8_client : ClientProfileRow := ⟨"u9", c8_quiz, none⟩

/-- An environment in which an unexpected exception fires inside
find_matches, so the request is answered by the fallback path. -/
def c8_env : MatchEnv := ⟨fun _ => none, fun _ => false, true⟩

/-! ## C4: fail-fast validation and the broken cache-write handler -/

/-- C4 (failing evaluation): a missing quiz factor is rejected with the
validation error before any scoring work — the same error for every
environment, coach set and cache state — but the converse direction of
the claim fails: with a complete quiz payload, a mid-request RedisError
inside set_match_cache hits the except clause that names the nonexistent
json.JSONEncodeError, the resulting AttributeError reaches the router's
`except Exception`, and the request fails with HTTP 500.  The evaluation
uses a benign environment (provider up, no timeouts, no pipeline error):
only the cache write fails. -/
theorem complete_quiz_request_fails_on_cache_write :
    (∀ (env : MatchEnv) (store : CacheStoreState) (db : List CoachProfileRow)
        (client : ClientProfileRow) (request : MatchRequest)
        (cache : List (String × CachedPayload)) (now : String),
      validate_quiz_data client.quiz_data = false →
      get_coach_matches env store db client request cache now =
        Except.error .validation_error) ∧
    validate_quiz_data c8_quiz = true ∧
    get_coach_matches ⟨fun _ => none, fun _ => false, false⟩ ⟨true, true⟩ [c8_coach] c8_client
      ⟨10, true⟩ [] "t2" = Except.error .internal_error := by
  refine ⟨?_, by decide, rfl⟩
  intro env store db client request cache now hv
  simp [get_coach_matches, hv]

/-- C4 witness: a client with an empty quiz payload is rejected with the
validation error; the missing-factor hypothesis is discharged at the
input. -/
theorem matching_validation_witness :
    get_coach_matches ⟨fun _ => none, fun _ => false, false⟩ ⟨true, false⟩ [] ⟨"u", [], none⟩
      ⟨10, true⟩ [] "t" = Except.error .validation_error :=
  complete_quiz_request_fails_on_cache_write.1 ⟨fun _ => none, fun _ => false, false⟩
    ⟨true, false⟩ [] ⟨"u", [], none⟩ ⟨10, true⟩ [] "t" rfl

/-! ## C8: the fallback path and the cache -/

/-- C8 counterexample: a request answered by the fallback path (internal
pipeline error) whose zero-scored fallback results are nevertheless
written to the cache — the router cannot distinguish them from real
results, because find_matches swallows the exception, and its
non-caching timeout branch is dead code. -/
theorem fallback_results_written_to_cache :
    get_coach_matches c8_env ⟨true, false⟩ [c8_coach] c8_client ⟨10, true⟩ [] "t0" =
      Except.ok ({ «matches» := [fallback_entry c8_coach], total_matches := 1,
                   cached := false, generated_at := "t0" },
        [(generate_cache_key "u9" (Json.obj c8_quiz),
          ⟨[fallback_entry c8_coach], 1, "t0"⟩)]) ∧
    (fallback_entry c8_coach).match_score = 0 ∧
    (fallback_entry c8_coach).confidence_score = 0 :=
  ⟨rfl, rfl, rfl⟩

/-- C8 amended: every fallback result carries match_score and
confidence_score 0.0 and is a verified-and-active coach selected with no
quiz-dependent scoring (get_fallback_matches never reads the client); and
whenever the fallback path answers a cache-miss request and the cache
write goes through (store reachable, setex does not raise), the router
writes the fallback payload to the cache exactly like a real result. -/
theorem fallback_zero_scores_quiz_free_cached (db : List CoachProfileRow) (limit : ℕ) :
    (∀ e ∈ get_fallback_matches db limit, e.match_score = 0 ∧ e.confidence_score = 0 ∧
      ∃ c, c ∈ db ∧ c.is_verified = true ∧ c.user_is_active = true ∧ e = fallback_entry c) ∧
    (∀ (env : MatchEnv) (store : CacheStoreState) (client : ClientProfileRow)
        (request : MatchRequest) (cache : List (String × CachedPayload)) (now : String),
      env.pipeline_error = true →
      validate_quiz_data client.quiz_data = true →
      (if request.use_cache then
          (if store.is_available then
            cache_get cache (generate_cache_key client.user_id (Json.obj client.quiz_data))
          else none)
        else none) = none →
      store.is_available = true →
      store.set_raises = false →
      get_coach_matches env store db client request cache now =
        Except.ok ({ «matches» := get_fallback_matches db request.limit,
                     total_matches := (get_fallback_matches db request.limit).length,
                     cached := false, generated_at := now },
          [(generate_cache_key client.user_id (Json.obj client.quiz_data),
            ⟨get_fallback_matches db request.limit,
             (get_fallback_matches db request.limit).length, now⟩)])) := by
  constructor
  · intro e he
    rw [get_fallback_matches] at he
    obtain ⟨c, hc, rfl⟩ := List.mem_map.mp he
    have h1 : c ∈ List.insertionSort rating_ge
        (db.filter (fun c => c.is_verified && c.user_is_active)) := by
      have h0 := (List.take_sublist _ _).subset hc
      rw [List.drop_zero] at h0
      exact h0
    have h2 := (List.perm_insertionSort rating_ge _).subset h1
    have h3 := List.mem_filter.mp h2
    have h4 := h3.2
    simp only [Bool.and_eq_true] at h4
    exact ⟨rfl, rfl, c, h3.1, h4.1, h4.2, rfl⟩
  · intro env store client request cache now hpe hv hmiss hav hsr
    simp only [get_coach_matches, hv, Bool.not_true]
    rw [if_neg (by simp)]
    rw [hmiss]
    rw [show find_matches env db client request.limit = get_fallback_matches db request.limit
      from by rw [find_matches, if_pos hpe]]
    rw [show cache_service_set store
          (generate_cache_key client.user_id (Json.obj client.quiz_data))
          ⟨get_fallback_matches db request.limit,
           (get_fallback_matches db request.limit).length, now⟩ =
        some [(generate_cache_key client.user_id (Json.obj client.quiz_data),
          ⟨get_fallback_matches db request.limit,
           (get_fallback_matches db request.limit).length, now⟩)]
      from by simp [cache_service_set, hav, hsr]]

/-- C8 witness: the amended caching behavior applied at a concrete
fallback-answered request, hypotheses discharged at the input. -/
theorem fallback_caching_witness :
    get_coach_matches c8_env ⟨true, false⟩ [c8_coach] c8_client ⟨5, false⟩ [] "t1" =
      Except.ok ({ «matches» := get_fallback_matches [c8_coach] 5,
                   total_matches := (get_fallback_matches [c8_coach] 5).length,
                   cached := false, generated_at := "t1" },
        [(generate_cache_key "u9" (Json.obj c8_quiz),
          ⟨get_fallback_matches [c8_coach] 5, (get_fallback_matches [c8_coach] 5).length, "t1"⟩)]) :=
  (fallback_zero_scores_quiz_free_cached [c8_coach] 5).2 c8_env ⟨true, false⟩ c8_client
    ⟨5, false⟩ [] "t1" rfl (by decide) rfl rfl rfl

/-! ## C9: per-client cache invalidation -/

lemma glob_star_all (s : List Char) : glob_match ['*'] s = true := by
  induction s with
  | nil => simp [glob_match]
  | cons c cs ih => simp [glob_match, ih]

lemma glob_lit_star (lit : List Char) (hstar : '*' ∉ lit) (s : List Char) :
    glob_match (lit ++ ['*']) s = lit.isPrefixOf s := by
  induction lit generalizing s with
  | nil => simp [glob_star_all, List.isPrefixOf]
  | cons p ps ih =>
    have hp : p ≠ '*' := fun h => hstar (h ▸ List.mem_cons_self _ _)
    have hps : '*' ∉ ps := fun h => hstar (List.mem_cons_of_mem _ h)
    cases s with
    | nil => simp [glob_match, hp, List.isPrefixOf]
    | cons c cs => simp [glob_match, hp, List.isPrefixOf, ih hps]

lemma prefix_ne_colon :
    ∀ (a b rest : List Char), ':' ∉ a → ':' ∉ b → a ≠ b →
      ¬ (a ++ [':']) <+: (b ++ ':' :: rest) := by
  intro a
  induction a with
  | nil =>
    intro b rest _ hb hne hp
    cases b with
    | nil => exact hne rfl
    | cons y ys =>
      rw [List.nil_append, List.cons_append, List.cons_prefix_cons] at hp
      exact hb (hp.1 ▸ List.mem_cons_self _ _)
  | cons x xs ih =>
    intro b rest ha hb hne hp
    cases b with
    | nil =>
      rw [List.cons_append, List.nil_append, List.cons_prefix_cons] at hp
      exact ha (hp.1 ▸ List.mem_cons_self _ _)
    | cons y ys =>
      rw [List.cons_append, List.cons_append, List.cons_prefix_cons] at hp
      obtain ⟨hxy, hp'⟩ := hp
      refine ih ys rest (fun h => ha (List.mem_cons_of_mem _ h))
        (fun h => hb (List.mem_cons_of_mem _ h)) (fun h => hne ?_) hp'
      rw [hxy, h]

lemma cache_key_data (cid : String) (quiz : Json) :
    (generate_cache_key cid quiz).data =
      ("match:".data ++ cid.data ++ [':']) ++
        (md5_hexdigest (utf8_encode (Json.dumps (Json.canon quiz)))).data := by
  simp [generate_cache_key, String.data_append]

lemma client_pattern_data (cid : String) :
    ("match:" ++ cid ++ ":*").data = ("match:".data ++ cid.data ++ [':']) ++ ['*'] := by
  simp [String.data_append]

lemma own_key_matches (cid : String) (quiz : Json) (hc : ':' ∉ cid.data ∧ '*' ∉ cid.data) :
    glob_match ("match:" ++ cid ++ ":*").data (generate_cache_key cid quiz).data = true := by
  rw [client_pattern_data, cache_key_data]
  rw [glob_lit_star _ (by simp [List.mem_append]; exact fun h => absurd h hc.2)]
  rw [List.isPrefixOf_iff_prefix]
  exact List.prefix_append _ _

lemma other_key_not_matched (cid cid2 : String) (quiz : Json)
    (hc : ':' ∉ cid.data ∧ '*' ∉ cid.data) (hc2 : ':' ∉ cid2.data ∧ '*' ∉ cid2.data)
    (hne : cid ≠ cid2) :
    glob_match ("match:" ++ cid ++ ":*").data (generate_cache_key cid2 quiz).data = false := by
  rw [client_pattern_data, cache_key_data]
  rw [glob_lit_star _ (by simp [List.mem_append]; exact fun h => absurd h hc.2)]
  rw [← Bool.not_eq_true, List.isPrefixOf_iff_prefix]
  intro hp
  have h1 : "match:".data ++ (cid.data ++ [':']) <+:
      "match:".data ++ (cid2.data ++ ':' ::
        (md5_hexdigest (utf8_encode (Json.dumps (Json.canon quiz)))).data) := by
    simpa [List.append_assoc] using hp
  have h2 := (List.prefix_append_right_inj "match:".data).mp h1
  exact prefix_ne_colon cid.data cid2.data _ hc.1 hc2.1
    (fun h => hne (String.ext h)) h2

/-- C9: invalidating by the pattern match:<cid>:* removes every cached
entry whose key was derived for cid — every generated key matches the
pattern — and leaves every entry keyed for a different client (UUID-style
identifiers: no colon, no star) untouched. -/
theorem invalidate_client_cache_exact (cid cid2 : String)
    (cache : List (String × CachedPayload))
    (hc : ':' ∉ cid.data ∧ '*' ∉ cid.data) (hc2 : ':' ∉ cid2.data ∧ '*' ∉ cid2.data)
    (hne : cid ≠ cid2) :
    (∀ (quiz : Json) (v : CachedPayload),
      (generate_cache_key cid quiz, v) ∉ invalidate_client_match_cache cid cache) ∧
    (∀ (quiz : Json) (v : CachedPayload),
      (generate_cache_key cid2 quiz, v) ∈ cache →
      (generate_cache_key cid2 quiz, v) ∈ invalidate_client_match_cache cid cache) := by
  constructor
  · intro quiz v hmem
    have h2 := (List.mem_filter.mp hmem).2
    rw [own_key_matches cid quiz hc] at h2
    simp at h2
  · intro quiz v hmem
    apply List.mem_filter.mpr
    refine ⟨hmem, ?_⟩
    rw [other_key_not_matched cid cid2 quiz hc hc2 hne]
    rfl

/-- C9 witness: a cache holding only another client's entry survives the
invalidation; every hypothesis is discharged at the concrete ids. -/
theorem invalidate_client_cache_witness :
    (generate_cache_key "b" (Json.obj []), (⟨[], 0, ""⟩ : CachedPayload)) ∈
      invalidate_client_match_cache "a"
        [(generate_cache_key "b" (Json.obj []), (⟨[], 0, ""⟩ : CachedPayload))] :=
  (invalidate_client_cache_exact "a" "b" _ (by decide) (by decide) (by decide)).2
    (Json.obj []) _ (List.mem_singleton.mpr rfl)

/-! ## C3: cache key derivation -/

instance : IsTotal (String × Json) fieldLe := ⟨fun a b => le_total a.1 b.1⟩

instance : IsTrans (String × Json) fieldLe := ⟨fun _ _ _ h1 h2 => le_trans h1 h2⟩

/-- Strict key order on object fields. -/
def fieldLt (p q : String × Json) : Prop := p.1 < q.1

instance : IsAntisymm (String × Json) fieldLt := ⟨fun _ _ h1 h2 => (lt_asymm h1 h2).elim⟩

lemma canonFields_eq_map (l : List (String × Json)) :
    Json.canonFields l = l.map (fun p => (p.1, Json.canon p.2)) := by
  induction l with
  | nil => rfl
  | cons p l ih =>
    cases p
    simp [Json.canonFields, ih]

lemma sorted_strict_of_nodup_keys (l : List (String × Json))
    (hn : (l.map Prod.fst).Nodup) (hs : l.Sorted fieldLe) : l.Sorted fieldLt := by
  have hne : l.Pairwise (fun p q => p.1 ≠ q.1) := List.pairwise_map.mp hn
  exact (hs.and hne).imp (fun h => lt_of_le_of_ne h.1 h.2)

lemma insertionSort_perm_nodup_eq (l1 l2 : List (String × Json))
    (hp : l1.Perm l2) (hnd : (l1.map Prod.fst).Nodup) :
    List.insertionSort fieldLe l1 = List.insertionSort fieldLe l2 := by
  have hnd2 : (l2.map Prod.fst).Nodup := ((hp.map Prod.fst).nodup_iff).mp hnd
  have hq1 : (List.insertionSort fieldLe l1).Perm l1 := List.perm_insertionSort _ _
  have hq2 : (List.insertionSort fieldLe l2).Perm l2 := List.perm_insertionSort _ _
  have hn1 : ((List.insertionSort fieldLe l1).map Prod.fst).Nodup :=
    ((hq1.map Prod.fst).nodup_iff).mpr hnd
  have hn2 : ((List.insertionSort fieldLe l2).map Prod.fst).Nodup :=
    ((hq2.map Prod.fst).nodup_iff).mpr hnd2
  exact List.eq_of_perm_of_sorted (hq1.trans (hp.trans hq2.symm))
    (sorted_strict_of_nodup_keys _ hn1 (List.sorted_insertionSort _ _))
    (sorted_strict_of_nodup_keys _ hn2 (List.sorted_insertionSort _ _))

lemma byte_hex_flatten_length (l : List Nat) :
    ((l.map byte_hex).flatten).length = 2 * l.length := by
  induction l with
  | nil => rfl
  | cons b l ih =>
    simp only [List.map_cons, List.flatten_cons, List.length_append, ih, byte_hex,
      List.length_cons, List.length_nil]
    omega

lemma md5_hexdigest_length (msg : List Nat) : (md5_hexdigest msg).length = 32 := by
  have h16 : (md5_digest_bytes msg).length = 16 := by
    simp [md5_digest_bytes, word_le_bytes]
  show ((md5_digest_bytes msg).map byte_hex).flatten.length = 32
  rw [byte_hex_flatten_length, h16]

lemma hex_char_spec (n : Nat) (h : n < 16) :
    (hex_char n).isDigit = true ∨ ('a' ≤ hex_char n ∧ hex_char n ≤ 'f') := by
  interval_cases n <;> decide

lemma md5_hexdigest_chars (msg : List Nat) :
    ∀ c ∈ (md5_hexdigest msg).data, c.isDigit = true ∨ ('a' ≤ c ∧ c ≤ 'f') := by
  intro c hc
  have hc' : c ∈ ((md5_digest_bytes msg).map byte_hex).flatten := hc
  obtain ⟨l', hl', hcl⟩ := List.mem_flatten.mp hc'
  obtain ⟨b, _, rfl⟩ := List.mem_map.mp hl'
  simp only [byte_hex, List.mem_cons, List.not_mem_nil, or_false] at hcl
  rcases hcl with rfl | rfl
  · exact hex_char_spec _ (Nat.mod_lt _ (by norm_num))
  · exact hex_char_spec _ (Nat.mod_lt _ (by norm_num))

/-- C3 (amended): generate_cache_key is deterministic and canonicalizes
the payload's field order — permuting the fields of the quiz object (a
dict, so keys are distinct) yields the same key — and every key has the
shape match:<client_id>:<h> with h a 32-character lowercase hex MD5
digest.  Distinct canonical payloads give distinct keys only up to MD5
collisions, which must exist (see the counterexample). -/
theorem generate_cache_key_canonical (client_id : String) (fs1 fs2 : List (String × Json)) :
    (fs1.Perm fs2 → (fs1.map Prod.fst).Nodup →
      generate_cache_key client_id (Json.obj fs1) = generate_cache_key client_id (Json.obj fs2)) ∧
    (∀ quiz : Json, ∃ h : String,
      generate_cache_key client_id quiz = "match:" ++ client_id ++ ":" ++ h ∧
      h.length = 32 ∧ ∀ c ∈ h.data, c.isDigit = true ∨ ('a' ≤ c ∧ c ≤ 'f')) := by
  constructor
  · intro hp hnd
    have hc : Json.canon (Json.obj fs1) = Json.canon (Json.obj fs2) := by
      simp only [Json.canon, canonFields_eq_map]
      congr 1
      apply insertionSort_perm_nodup_eq _ _ (hp.map _)
      simpa [List.map_map, Function.comp] using hnd
    rw [generate_cache_key, generate_cache_key, hc]
  · intro quiz
    exact ⟨md5_hexdigest (utf8_encode (Json.dumps (Json.canon quiz))), rfl,
      md5_hexdigest_length _, md5_hexdigest_chars _⟩

/-- C3 witness: reordering the two fields of a payload leaves the key
unchanged; the permutation and key-distinctness hypotheses are discharged
at the concrete payloads. -/
theorem generate_cache_key_canonical_witness :
    generate_cache_key "c" (Json.obj [("b", Json.int 1), ("a", Json.int 2)]) =
      generate_cache_key "c" (Json.obj [("a", Json.int 2), ("b", Json.int 1)]) :=
  (generate_cache_key_canonical "c" [("b", Json.int 1), ("a", Json.int 2)]
    [("a", Json.int 2), ("b", Json.int 1)]).1 (List.Perm.swap _ _ _) (by decide)

/-! ## C3 counterexample: MD5 collisions must exist -/

/-- The n-character string xx...x. -/
def c3_str (n : ℕ) : String := String.mk (List.replicate n 'x')

/-- A one-field quiz payload whose value is the n-character string. -/
def c3_payload (n : ℕ) : Json := Json.obj [("a", Json.str (c3_str n))]

lemma c3_canon (n : ℕ) : Json.canon (c3_payload n) = c3_payload n := by
  simp [c3_payload, Json.canon, Json.canonFields, List.insertionSort, List.orderedInsert]

lemma c3_str_inj (m n : ℕ) (h : c3_str m = c3_str n) : m = n := by
  have := congrArg (fun s => s.data.length) h
  simpa [c3_str] using this

/-- The four MD5 registers are each below 2^32. -/
def md5_bounded (st : Md5State) : Prop :=
  st.a < 4294967296 ∧ st.b < 4294967296 ∧ st.c < 4294967296 ∧ st.d < 4294967296

lemma md5_compress_bounded (st : Md5State) (chunk : List Nat) :
    md5_bounded (md5_compress st chunk) := by
  refine ⟨?_, ?_, ?_, ?_⟩ <;>
    exact Nat.mod_lt _ (by norm_num)

lemma md5_words_bounded (msg : List Nat) : md5_bounded (md5_words msg) := by
  rw [md5_words]
  have haux : ∀ (cs : List (List Nat)) (st : Md5State), md5_bounded st →
      md5_bounded (cs.foldl md5_compress st) := by
    intro cs
    induction cs with
    | nil => exact fun st h => h
    | cons c cs ih => exact fun st _ => ih _ (md5_compress_bounded st c)
  exact haux _ md5_init (by norm_num [md5_bounded, md5_init])

lemma md5_hexdigest_congr (m1 m2 : List Nat) (h : md5_words m1 = md5_words m2) :
    md5_hexdigest m1 = md5_hexdigest m2 := by
  simp only [md5_hexdigest, md5_digest_bytes, h]

lemma md5_state_ext (s t : Md5State) (h1 : s.a = t.a) (h2 : s.b = t.b)
    (h3 : s.c = t.c) (h4 : s.d = t.d) : s = t := by
  cases s
  cases t
  simp_all

/-- The register state for the n-th probe payload. -/
def c3_words (n : ℕ) : Md5State :=
  md5_words (utf8_encode (Json.dumps (Json.canon (c3_payload n))))

/-- The register state packed into a finite type. -/
def c3_fin (n : ℕ) : Fin 4294967296 × Fin 4294967296 × Fin 4294967296 × Fin 4294967296 :=
  ⟨⟨(c3_words n).a, (md5_words_bounded _).1⟩, ⟨(c3_words n).b, (md5_words_bounded _).2.1⟩,
   ⟨(c3_words n).c, (md5_words_bounded _).2.2.1⟩, ⟨(c3_words n).d, (md5_words_bounded _).2.2.2⟩⟩

/-- C3 counterexample: the claim that any change to the quiz content
yields a different key is false — infinitely many canonically distinct
payloads map into the 2^128 possible MD5 digests, so two distinct quiz
payloads share one cache key. -/
theorem generate_cache_key_collision_exists :
    ∃ q1 q2 : Json, Json.canon q1 ≠ Json.canon q2 ∧
      generate_cache_key "c" q1 = generate_cache_key "c" q2 := by
  obtain ⟨m, n, hmn, hf⟩ := Finite.exists_ne_map_eq_of_infinite c3_fin
  have hw : c3_words m = c3_words n := by
    simp only [c3_fin, Prod.mk.injEq, Fin.mk.injEq] at hf
    exact md5_state_ext _ _ hf.1 hf.2.1 hf.2.2.1 hf.2.2.2
  refine ⟨c3_payload m, c3_payload n, ?_, ?_⟩
  · rw [c3_canon, c3_canon]
    intro h
    apply hmn
    simp only [c3_payload, Json.obj.injEq, List.cons.injEq, Prod.mk.injEq, Json.str.injEq,
      and_true, true_and] at h
    exact c3_str_inj m n h
  · rw [generate_cache_key, generate_cache_key]
    rw [md5_hexdigest_congr _ _ hw]
